import Mathlib

/-!
Verification of the Sangfor SCP API client library (`client.py`).

The development shallowly embeds the Python source:
* JSON values returned by the API are modelled by the inductive `Json`,
  with Python truthiness (`Json.truthy`) and `dict.get` (`Json.get`).
* The HTTP transport is an external collaborator; it is modelled as a pure
  function `Req → Option Json` (`none` models `send_request` returning
  `None` on a connection failure or an undecodable success body).
* Python exceptions are modelled with `Except`; the `while` loop in
  `get_all_vms` is modelled with explicit fuel (the loop itself has no
  bound in the source, so theorems supply enough fuel for the runs they
  describe; running out of fuel is mapped to `Except.error`, which no
  theorem below ever exercises).
* Every request actually issued is accumulated in a request log, so that
  "no network calls" / "exactly 4 page requests" are provable statements.
-/

namespace Sangfor

/-- JSON values (the decoded bodies handed back by `response.json()`). -/
inductive Json where
  | null
  | bool (b : Bool)
  | num (n : Int)
  | str (s : String)
  | arr (xs : List Json)
  | obj (fields : List (String × Json))

mutual

/-- Python `==` on decoded JSON values (deep structural equality). -/
def Json.beq : Json → Json → Bool
  | Json.null, Json.null => true
  | Json.bool a, Json.bool b => a == b
  | Json.num a, Json.num b => a == b
  | Json.str a, Json.str b => a == b
  | Json.arr xs, Json.arr ys => Json.beqList xs ys
  | Json.obj fs, Json.obj gs => Json.beqFields fs gs
  | _, _ => false

def Json.beqList : List Json → List Json → Bool
  | [], [] => true
  | x :: xs, y :: ys => Json.beq x y && Json.beqList xs ys
  | _, _ => false

def Json.beqFields : List (String × Json) → List (String × Json) → Bool
  | [], [] => true
  | (k, v) :: fs, (k2, v2) :: gs =>
    k == k2 && Json.beq v v2 && Json.beqFields fs gs
  | _, _ => false

end

instance : BEq Json := ⟨Json.beq⟩

/-- Python `d.get(key)` on a decoded JSON object: first binding of `key`,
`none` when the key is absent or the receiver is not an object
(a non-mapping receiver would raise `AttributeError` in Python; no theorem
below applies `get` to one). -/
def Json.get (j : Json) (key : String) : Option Json :=
  match j with
  | Json.obj fields => fields.lookup key
  | _ => none

/-- Python truthiness of a decoded JSON value: `None`, `False`, `0`, `""`,
`[]` and `{}` are falsy, everything else is truthy. -/
def Json.truthy : Json → Bool
  | Json.null => false
  | Json.bool b => b
  | Json.num n => n != 0
  | Json.str s => s != ""
  | Json.arr xs => !xs.isEmpty
  | Json.obj fields => !fields.isEmpty

/-- Truthiness of the result of a `.get` (Python: `None` is falsy). -/
def optTruthy : Option Json → Bool
  | none => false
  | some j => j.truthy

/-- Python `int(x)` on a JSON scalar; `none` models the `ValueError` /
`TypeError` that `int()` raises on non-numeric input. -/
def pythonInt : Json → Option Int
  | Json.num n => some n
  | Json.str s => s.toInt?
  | Json.bool b => some (if b then 1 else 0)
  | _ => none

/-- A request issued through `send_request`: HTTP method, path under the
base URL, and the `params` mapping (query parameters). -/
structure Req where
  method : String
  path : String
  params : List (String × Int)
deriving DecidableEq

/-- The transport collaborator: what `send_request` evaluates to for a
given request. `none` models the `None` sentinel (connection failure or
undecodable success body); `some j` models a decoded JSON body. -/
def Net : Type := Req → Option Json

def serversPath : String := "/janus/20190725/servers"

/-- `get_vms(page_num, page_size)` (client.py:139-147): builds the params
dict — `page_num` is added whenever it is not `None` (so page 0 is sent),
`page_size` only when truthy (so `0` would be dropped) — and issues a
single GET on the servers path. Returns the response together with the
request issued. -/
def get_vms (net : Net) (page_num : Option Int) (page_size : Option Int) :
    Option Json × Req :=
  let params :=
    (match page_num with
     | some p => [("page_num", p)]
     | none => []) ++
    (match page_size with
     | some s => if s != 0 then [("page_size", s)] else []
     | none => [])
  let r : Req := ⟨"GET", serversPath, params⟩
  (net r, r)

/-- The request `get_all_vms` issues for page `p` (page size fixed at 100). -/
def pageReq (p : Int) : Req :=
  ⟨"GET", serversPath, [("page_num", p), ("page_size", 100)]⟩

/-- The guard of client.py:165:
`response and response.get('data') and isinstance(response['data'].get('data'), list)` —
falsy response, falsy `data` member, or a `data.data` that is not a list
(an empty list passes) all fail the guard and break the loop. -/
def pageOk : Option Json → Bool
  | none => false
  | some j =>
    j.truthy &&
    (match j.get "data" with
     | some d =>
       d.truthy &&
       (match d.get "data" with
        | some (Json.arr _) => true
        | _ => false)
     | none => false)

/-- `response['data']['data']` — the records on this page (meaningful when
`pageOk` holds). -/
def pageRecords : Option Json → List Json
  | none => []
  | some j =>
    match j.get "data" with
    | some d =>
      match d.get "data" with
      | some (Json.arr xs) => xs
      | _ => []
    | none => []

/-- `response['data'].get('next_page_num')` — the next-page token. -/
def nextPageTok : Option Json → Option Json
  | none => none
  | some j =>
    match j.get "data" with
    | some d => d.get "next_page_num"
    | none => none

/-- The `while True` loop of `get_all_vms` (client.py:160-172), with fuel.
Each iteration calls `get_vms(page_num=current_page, page_size=100)` and
appends the request to the log; it breaks when the `pageOk` guard fails,
and otherwise extends the accumulator with the page's records and breaks
when the next-page token is falsy or the page was empty; `int()` failure
on a truthy non-numeric token (a raised exception in Python) and fuel
exhaustion are both `Except.error`. -/
def getAllVmsLoop (net : Net) : Nat → Int → List Json → List Req →
    Except Unit (List Json × List Req)
  | 0, _, _, _ => Except.error ()
  | Nat.succ fuel, page, acc, log =>
    let step := get_vms net (some page) (some 100)
    let resp := step.1
    let log2 := log ++ [step.2]
    if pageOk resp then
      let vms := pageRecords resp
      let acc2 := acc ++ vms
      let tok := nextPageTok resp
      if optTruthy tok && !vms.isEmpty then
        match tok with
        | some t =>
          match pythonInt t with
          | some n => getAllVmsLoop net fuel n acc2 log2
          | none => Except.error ()
        | none => Except.error ()
      else Except.ok (acc2, log2)
    else Except.ok (acc, log2)

/-- The client state relevant to these claims: the single-slot VM cache
(`self._all_vms_cache`, client.py:107, initially `None`). -/
structure ClientState where
  all_vms_cache : Option (List Json)

/-- `get_all_vms(use_cache)` (client.py:149-178): if `use_cache` and the
cache slot is not `None`, return the cached list with no network calls;
otherwise run the pagination loop from page 0 with page size 100,
store the accumulated list in the cache unconditionally, and return it.
Result: (returned list, new client state, requests issued). -/
def get_all_vms (net : Net) (st : ClientState) (use_cache : Bool)
    (fuel : Nat) : Except Unit (List Json × ClientState × List Req) :=
  if use_cache then
    match st.all_vms_cache with
    | some cached => Except.ok (cached, st, [])
    | none =>
      match getAllVmsLoop net fuel 0 [] [] with
      | Except.ok (vms, log) => Except.ok (vms, ⟨some vms⟩, log)
      | Except.error e => Except.error e
  else
    match getAllVmsLoop net fuel 0 [] [] with
    | Except.ok (vms, log) => Except.ok (vms, ⟨some vms⟩, log)
    | Except.error e => Except.error e

/-! ### Request signer (`_EC2RequestAuth`, client.py:19-87)

Cryptographic primitives (SHA-256, HMAC-SHA256) are external library
calls in the source; they are abstracted as opaque string-valued
functions in `HashFns`.  Byte strings are modelled as `String` (UTF-8
encoding of a string is injective, so nothing is lost for the equality
and independence properties proved here). -/

/-- The abstracted crypto primitives: `hashlib.sha256(...).hexdigest()`,
`hmac.new(key, msg, sha256).digest()` and `...hexdigest()`. -/
structure HashFns where
  sha256hex : String → String
  hmacDigest : String → String → String
  hmacHexDigest : String → String → String

/-- A UTC timestamp as captured by `datetime.datetime.now(datetime.UTC)`. -/
structure UtcTime where
  year : Nat
  month : Nat
  day : Nat
  hour : Nat
  minute : Nat
  second : Nat

/-- Zero-padded two-digit rendering (the `%m`, `%d`, `%H`, `%M`, `%S`
directives of `strftime` for in-range values). -/
def two (n : Nat) : String :=
  if n < 10 then "0" ++ toString n else toString n

/-- One `strftime` directive (the character after a `%`). -/
def strftimeDirective (c : Char) (t : UtcTime) : String :=
  if c = 'Y' then toString t.year
  else if c = 'm' then two t.month
  else if c = 'd' then two t.day
  else if c = 'H' then two t.hour
  else if c = 'M' then two t.minute
  else if c = 'S' then two t.second
  else if c = '%' then "%"
  else "%" ++ String.singleton c

def strftimeList : List Char → UtcTime → String
  | [], _ => ""
  | '%' :: c :: rest, t => strftimeDirective c t ++ strftimeList rest t
  | c :: rest, t => String.singleton c ++ strftimeList rest t

/-- Python `t.strftime(fmt)`: `%`-directives are expanded, every other
character is copied literally. -/
def strftime (fmt : String) (t : UtcTime) : String :=
  strftimeList fmt.toList t

/-- client.py:45 — `amzdate = t.strftime('%Y%m%dT%H%M%SZ')`. -/
def amzdateOf (t : UtcTime) : String :=
  strftime "%Y%m%dT%H%M%SZ" t

/-- client.py:46 — `datestamp = t.strftime('%Ym%d')` (note: the format
string is exactly as in the source). -/
def datestampOf (t : UtcTime) : String :=
  strftime "%Ym%d" t

/-- `_sign(key, message)` (client.py:19-21). -/
def _sign (H : HashFns) (key message : String) : String :=
  H.hmacDigest key message

/-- `_get_signature_key` (client.py:23-29): the chained HMAC derivation. -/
def _get_signature_key (H : HashFns)
    (key date_stamp region_name service_name : String) : String :=
  let k_date := _sign H ("AWS4" ++ key) date_stamp
  let k_region := _sign H k_date region_name
  let k_service := _sign H k_region service_name
  let k_signing := _sign H k_service "aws4_request"
  k_signing

/-- The credentials held by `_EC2RequestAuth.__init__`. -/
structure Creds where
  access_key : String
  secret_key : String
  region : String
  service : String

/-- The outgoing request as seen by `_EC2RequestAuth.__call__`, with the
URL already split by `urlparse` into netloc, path and query.  The query
component carries the query parameters sent on the wire. -/
structure SignRequest where
  method : String
  urlNetloc : String
  urlPath : String
  urlQuery : String
  headers : List (String × String)
  body : String

/-- Everything `_EC2RequestAuth.__call__` computes. -/
structure SignResult where
  amzdate : String
  datestamp : String
  canonical_uri : String
  canonical_querystring : String
  canonical_request : String
  credential_scope : String
  string_to_sign : String
  signing_key : String
  signature : String
  authorization_header : String

def signAlgorithm : String := "AWS4-HMAC-SHA256"

/-- `_EC2RequestAuth.__call__` (client.py:43-87), with the request's UTC
timestamp made explicit.  The headers dict is case-insensitive and
`Host` / `X-Amz-Date` are overwritten just before the canonical-headers
block is built, so `headers['host']` and `headers['x-amz-date']` are the
netloc and the amz-date regardless of pre-existing headers. -/
def ec2SignCall (H : HashFns) (c : Creds) (t : UtcTime) (r : SignRequest) :
    SignResult :=
  let amzdate := amzdateOf t
  let datestamp := datestampOf t
  let host := r.urlNetloc
  let canonical_uri := if r.urlPath = "" then "/" else r.urlPath
  let canonical_querystring := ""
  let signed_headers_str := "host;x-amz-date"
  let canonical_headers :=
    "host:" ++ host ++ "\n" ++ "x-amz-date:" ++ amzdate ++ "\n"
  let body_hash := H.sha256hex r.body
  let canonical_request := String.intercalate "\n"
    [r.method, canonical_uri, canonical_querystring,
     canonical_headers, signed_headers_str, body_hash]
  let credential_scope :=
    datestamp ++ "/" ++ c.region ++ "/" ++ c.service ++ "/aws4_request"
  let string_to_sign := String.intercalate "\n"
    [signAlgorithm, amzdate, credential_scope,
     H.sha256hex canonical_request]
  let signing_key := _get_signature_key H c.secret_key datestamp c.region c.service
  let signature := H.hmacHexDigest signing_key string_to_sign
  let authorization_header :=
    signAlgorithm ++ " Credential=" ++ c.access_key ++ "/" ++
    credential_scope ++ ", SignedHeaders=" ++ signed_headers_str ++
    ", Signature=" ++ signature
  ⟨amzdate, datestamp, canonical_uri, canonical_querystring,
   canonical_request, credential_scope, string_to_sign, signing_key,
   signature, authorization_header⟩

/-! ### `send_request` error handling (client.py:109-132) -/

/-- Python exceptions that these operations can raise. -/
inductive PyErr where
  | valueError
  | jsonDecodeError
deriving DecidableEq

/-- What the transport produced for one call: an HTTP response
(status code plus the JSON decode of its body, `none` when the body is
not JSON-decodable — JSON decoding itself is an external collaborator),
or a connection/transport failure (`requests.exceptions.RequestException`
other than `HTTPError`). -/
inductive TransportOutcome where
  | response (status : Nat) (bodyJson : Option Json)
  | connectionFailure

/-- `send_request` (client.py:109-132).  `raise_for_status()` raises
`HTTPError` exactly for status codes 400-599.  On that path the handler
calls `e.response.json()`; if the error body is not JSON-decodable this
second decode raises `json.JSONDecodeError` *inside* the `except` block,
where the later sibling `except` clauses do not apply, so the exception
propagates to the caller.  `Except.ok none` models returning `None`. -/
def send_request (outcome : TransportOutcome) :
    Except PyErr (Option Json) :=
  match outcome with
  | TransportOutcome.connectionFailure => Except.ok none
  | TransportOutcome.response status bodyJson =>
    if 400 ≤ status ∧ status < 600 then
      match bodyJson with
      | some j => Except.ok (some j)
      | none => Except.error PyErr.jsonDecodeError
    else
      match bodyJson with
      | some j => Except.ok (some j)
      | none => Except.ok none

/-! ### VM detail / snapshot / backup lookups and `find_vm` -/

/-- Path interpolation of client.py:183. -/
def vmDetailsPath (vm_id : String) : String :=
  "/janus/20190725/servers/" ++ vm_id

/-- The GET request issued by `get_vm_details`. -/
def vmDetailsReq (vm_id : String) : Req :=
  ⟨"GET", vmDetailsPath vm_id, []⟩

/-- `get_vm_details(vm_id)` (client.py:180-184): raises `ValueError` when
`vm_id` is falsy (empty string models empty/missing), before any request;
otherwise a single GET on the interpolated path.  Returns the response
and the list of requests issued. -/
def get_vm_details (net : Net) (vm_id : String) :
    Except PyErr (Option Json) × List Req :=
  if vm_id = "" then (Except.error PyErr.valueError, [])
  else (Except.ok (net (vmDetailsReq vm_id)), [vmDetailsReq vm_id])

/-- The GET request issued by `get_vm_snapshots`. -/
def vmSnapshotsReq (vm_id : String) : Req :=
  ⟨"GET", vmDetailsPath vm_id ++ "/snapshots", []⟩

/-- `get_vm_snapshots(vm_id)` (client.py:208-212). -/
def get_vm_snapshots (net : Net) (vm_id : String) :
    Except PyErr (Option Json) × List Req :=
  if vm_id = "" then (Except.error PyErr.valueError, [])
  else (Except.ok (net (vmSnapshotsReq vm_id)), [vmSnapshotsReq vm_id])

/-- The GET request issued by `get_vm_backups`. -/
def vmBackupsReq (vm_id : String) : Req :=
  ⟨"GET", vmDetailsPath vm_id ++ "/backups", []⟩

/-- `get_vm_backups(vm_id)` (client.py:214-218). -/
def get_vm_backups (net : Net) (vm_id : String) :
    Except PyErr (Option Json) × List Req :=
  if vm_id = "" then (Except.error PyErr.valueError, [])
  else (Except.ok (net (vmBackupsReq vm_id)), [vmBackupsReq vm_id])

/-- The string the matched VM's `id` field interpolates to;
`get_vm_details` is then called with it.  A missing or non-string `id`
is modelled as `""` (in Python a falsy `id` likewise makes
`get_vm_details` raise `ValueError`). -/
def vmIdString (vm : Json) : String :=
  match vm.get "id" with
  | some (Json.str s) => s
  | _ => ""

/-- Python `s.split(sep)` for a single-character separator: split on
every occurrence, keeping empty segments (`"a--b".split('-')` is
`['a', '', 'b']`, `"".split('-')` is `['']`). -/
def pySplitAux (sep : Char) : List Char → List Char → List String
  | [], cur => [String.mk cur.reverse]
  | c :: rest, cur =>
    if c = sep then String.mk cur.reverse :: pySplitAux sep rest []
    else pySplitAux sep rest (c :: cur)

def pySplit (s : String) (sep : Char) : List String :=
  pySplitAux sep s.data []

/-- Python `vm.get('name') == identifier` — `None == str` is `False`,
a retrieved value compares by `==` (deep equality) against the string. -/
def pyEqStr (o : Option Json) (s : String) : Bool :=
  match o with
  | some v => Json.beq v (Json.str s)
  | none => false

/-- `find_vm(identifier)` (client.py:186-206): `is_uuid` iff splitting on
the hyphen gives exactly 5 segments; if so, direct detail lookup;
otherwise `get_all_vms()` (with its default `use_cache=True`), then the
first VM whose `name` field equals (`==`) the identifier, then a detail
lookup by that VM's `id`; `none` result when there is no match.
Returns (result, new client state, requests issued); a raised exception
is `Except.error (some e)`, and `Except.error none` is the loop's fuel /
`int()` error. -/
def find_vm (net : Net) (st : ClientState) (identifier : String)
    (fuel : Nat) : Except (Option PyErr)
      (Option Json × ClientState × List Req) :=
  if (pySplit identifier '-').length = 5 then
    match get_vm_details net identifier with
    | (Except.ok resp, reqs) => Except.ok (resp, st, reqs)
    | (Except.error e, _) => Except.error (some e)
  else
    match get_all_vms net st true fuel with
    | Except.error _ => Except.error none
    | Except.ok (vm_list, st2, log) =>
      match vm_list.find? (fun vm => pyEqStr (vm.get "name") identifier) with
      | some target_vm =>
        match get_vm_details net (vmIdString target_vm) with
        | (Except.ok resp, reqs) => Except.ok (resp, st2, log ++ reqs)
        | (Except.error e, _) => Except.error (some e)
      | none => Except.ok (none, st2, log)

/-! ### `generate_infrastructure_report` (client.py:220-307)

The aggregation pass is modelled over record types mirroring the fields
the report reads from each VM dict (`vm.get(key, default)` becomes an
`Option` field with the source's default).  Numeric fields use `ℚ`:
every arithmetic step of the source on the inputs considered here
(division by the powers of two 1024 and 1024·1024, addition) is exact in
IEEE-754 binary64 for the magnitudes involved, so exact rationals are a
faithful model of the accumulation.  The `report_generated_at` wall-clock
field is not modelled. -/

/-- One entry of a VM's `disks` list (`disk.get('size_mb', 0.0)`). -/
structure DiskRec where
  size_mb : Option ℚ
deriving DecidableEq

/-- `vm.get('cpu_status')` — `used_mhz` member. -/
structure CpuStatusRec where
  used_mhz : Option ℚ
deriving DecidableEq

/-- `vm.get('memory_status')` / `vm.get('storage_status')` — `used_mb`. -/
structure UsedMbRec where
  used_mb : Option ℚ
deriving DecidableEq

/-- The fields of a VM record that the report reads.  An `Option` field
is `none` when the key is absent from the dict. -/
structure VMRec where
  az_name : Option String
  status : Option String
  cores : Option Int
  memory_mb : Option ℚ
  disks : Option (List DiskRec)
  cpu_status : Option CpuStatusRec
  memory_status : Option UsedMbRec
  storage_status : Option UsedMbRec
deriving DecidableEq

/-- An availability-zone record; the report uses only its `name`. -/
structure AZRec where
  name : Option String
deriving DecidableEq

/-- The `total_provisioned` sub-dict (the per-zone variant names its
memory key `ram_gb`; the values are aggregated identically). -/
structure ProvTotals where
  cpu_cores : Int
  memory_gb : ℚ
  disk_tb : ℚ
deriving DecidableEq

/-- The `total_used` sub-dict. -/
structure UsedTotals where
  cpu_mhz : ℚ
  memory_gb : ℚ
  disk_gb : ℚ
deriving DecidableEq

/-- One totals block (`overall_totals`, and the value for each zone in
`by_availability_zone`). -/
structure TotalsBlock where
  total_vms : Nat
  running : Nat
  stopped : Nat
  other : Nat
  total_provisioned : ProvTotals
  total_used : UsedTotals
deriving DecidableEq

/-- The report skeleton of client.py:234-243. -/
structure Report where
  overall_totals : TotalsBlock
  by_availability_zone : List (String × TotalsBlock)
deriving DecidableEq

def emptyTotals : TotalsBlock :=
  ⟨0, 0, 0, 0, ⟨0, 0, 0⟩, ⟨0, 0, 0⟩⟩

/-- client.py:245-254: one zone entry per `az` whose `name` is truthy
(dict insertion order preserved; re-assigning a duplicate name stores the
identical fresh block again, which is the same as keeping the first). -/
def initialZones (az_list : List AZRec) : List (String × TotalsBlock) :=
  az_list.foldl
    (fun acc az =>
      match az.name with
      | some n =>
        if n = "" then acc
        else if (acc.lookup n).isSome then acc
        else acc ++ [(n, emptyTotals)]
      | none => acc)
    []

def initReport (az_list : List AZRec) : Report :=
  ⟨emptyTotals, initialZones az_list⟩

/-- client.py:261-263 — status bucketing. -/
def statusBucket (vm : VMRec) : String :=
  let status := vm.status.getD "other"
  if status = "running" ∨ status = "stopped" then status else "other"

/-- client.py:258 — `if not az_name or az_name not in report['by_availability_zone']: continue`
(`not az_name` is true for a missing key and for the empty string). -/
def vmSkipped (zones : List (String × TotalsBlock)) (vm : VMRec) : Bool :=
  match vm.az_name with
  | none => true
  | some az => az = "" || !(zones.lookup az).isSome

/-- `sum(disk.get('size_mb', 0.0) for disk in vm.get('disks', []))`. -/
def vmTotalDiskMb (vm : VMRec) : ℚ :=
  ((vm.disks.getD []).map (fun d => d.size_mb.getD 0)).sum

/-- The contribution of one counted VM to a totals block
(client.py:265-299; overall and per-zone blocks receive the same
increments, only the dict key names differ). -/
def addVmToBlock (vm : VMRec) (b : TotalsBlock) : TotalsBlock :=
  let status := statusBucket vm
  let cores := vm.cores.getD 0
  let memory_mb := vm.memory_mb.getD 0
  let total_disk_mb := vmTotalDiskMb vm
  { total_vms := b.total_vms + 1
    running := b.running + (if status = "running" then 1 else 0)
    stopped := b.stopped + (if status = "stopped" then 1 else 0)
    other := b.other + (if status = "other" then 1 else 0)
    total_provisioned :=
      { cpu_cores := b.total_provisioned.cpu_cores + cores
        memory_gb := b.total_provisioned.memory_gb + memory_mb / 1024
        disk_tb := b.total_provisioned.disk_tb + total_disk_mb / (1024 * 1024) }
    total_used :=
      { cpu_mhz := b.total_used.cpu_mhz +
          (match vm.cpu_status with
           | some cs => cs.used_mhz.getD 0
           | none => 0)
        memory_gb := b.total_used.memory_gb +
          (match vm.memory_status with
           | some ms => ms.used_mb.getD 0 / 1024
           | none => 0)
        disk_gb := b.total_used.disk_gb +
          (match vm.storage_status with
           | some ss => ss.used_mb.getD 0 / 1024
           | none => 0) } }

/-- One iteration of the aggregation loop (client.py:256-299): a VM whose
zone is falsy or unknown is skipped entirely (`continue` fires before any
total is touched); otherwise both the overall block and the VM's zone
block receive its contribution. -/
def processVM (r : Report) (vm : VMRec) : Report :=
  if vmSkipped r.by_availability_zone vm then r
  else
    { overall_totals := addVmToBlock vm r.overall_totals
      by_availability_zone :=
        r.by_availability_zone.map
          (fun p => if p.1 = vm.az_name.getD "" then (p.1, addVmToBlock vm p.2) else p) }

/-- Round-half-to-even to an integer (the rounding of Python `round`). -/
def roundHalfEven (q : ℚ) : Int :=
  let f := ⌊q⌋
  if q - f < 1 / 2 then f
  else if q - f > 1 / 2 then f + 1
  else if f % 2 = 0 then f else f + 1

/-- Python `round(x, 2)` (on values exactly representable in binary64,
which covers every value produced below). -/
def pyRound2 (q : ℚ) : ℚ :=
  roundHalfEven (q * 100) / 100

/-- The final rounding pass (client.py:302-305): every value in every
`total_provisioned` / `total_used` sub-dict is rounded to 2 decimals
(`round(int, 2)` leaves the integer `cpu_cores` unchanged). -/
def finalizeBlock (b : TotalsBlock) : TotalsBlock :=
  { b with
    total_provisioned :=
      { cpu_cores := b.total_provisioned.cpu_cores
        memory_gb := pyRound2 b.total_provisioned.memory_gb
        disk_tb := pyRound2 b.total_provisioned.disk_tb }
    total_used :=
      { cpu_mhz := pyRound2 b.total_used.cpu_mhz
        memory_gb := pyRound2 b.total_used.memory_gb
        disk_gb := pyRound2 b.total_used.disk_gb } }

def finalizeReport (r : Report) : Report :=
  ⟨finalizeBlock r.overall_totals,
   r.by_availability_zone.map (fun p => (p.1, finalizeBlock p.2))⟩

/-- The aggregation core of `generate_infrastructure_report`
(client.py:231-307), applied to the fetched VM list and zone list: the
distinct no-VMs error result when the list is empty, otherwise one fold
over the VMs followed by the single final rounding pass. -/
def generate_infrastructure_report (all_vms : List VMRec)
    (az_list : List AZRec) : Except String Report :=
  if all_vms.isEmpty then
    Except.error "No virtual machines were found."
  else
    Except.ok (finalizeReport (all_vms.foldl processVM (initReport az_list)))

/-! ### Concrete fixtures used by witnesses and counterexamples -/

/-- A concrete stand-in for the crypto primitives (any `HashFns` works in
the theorems; witnesses need one to evaluate). -/
def demoHashFns : HashFns :=
  ⟨fun s => "sha256(" ++ s ++ ")",
   fun k m => "hmac(" ++ k ++ "," ++ m ++ ")",
   fun k m => "hmachex(" ++ k ++ "," ++ m ++ ")"⟩

def demoCreds : Creds :=
  ⟨"AK", "SK", "default", "ec2"⟩

def demoTime : UtcTime :=
  ⟨2026, 10, 12, 9, 30, 0⟩

/-- Two outgoing requests that agree on everything the claim fixes and
differ in their query component. -/
def demoSignReqA : SignRequest :=
  ⟨"GET", "scp.example.com", "/janus/20190725/servers", "page_num=0&page_size=100", [], ""⟩

def demoSignReqB : SignRequest :=
  ⟨"GET", "scp.example.com", "/janus/20190725/servers", "debug=1&x=y", [], ""⟩

/-- A transport that answers nothing (connection failure on every
request). -/
def nullNet : Net := fun _ => none

/-- A page response in the shape `get_all_vms` consumes:
`{"data": {"data": [...records...], "next_page_num": tok?}}`. -/
def mkPageResp (records : List Json) (tok : Option Int) : Json :=
  Json.obj [("data", Json.obj
    ([("data", Json.arr records)] ++
     (match tok with
      | some n => [("next_page_num", Json.num n)]
      | none => [])))]

/-- The pages of the simulated backend of the pagination claim: sizes
[100, 100, 37, 0], with distinct numbered records in server order. -/
def demoPage : Nat → List Json
  | 0 => (List.range 100).map (fun i => Json.num i)
  | 1 => (List.range 100).map (fun i => Json.num (100 + i))
  | 2 => (List.range 37).map (fun i => Json.num (200 + i))
  | _ => []

/-- The simulated paginated backend: pages 0-2 carry next-page tokens
1, 2, 3; page 3 is empty with no token. -/
def demoNet : Net := fun r =>
  if r.method = "GET" ∧ r.path = serversPath then
    match r.params.lookup "page_num" with
    | some 0 => some (mkPageResp (demoPage 0) (some 1))
    | some 1 => some (mkPageResp (demoPage 1) (some 2))
    | some 2 => some (mkPageResp (demoPage 2) (some 3))
    | some 3 => some (mkPageResp (demoPage 3) none)
    | _ => none
  else none

/-- All 237 records of the simulated backend, in server order. -/
def demoAll : List Json := (List.range 237).map (fun i => Json.num i)

/-- The four page requests the scan is expected to issue. -/
def demoLog : List Req := [pageReq 0, pageReq 1, pageReq 2, pageReq 3]

/-- A backend whose every page is well-formed but empty, with a next-page
token (exercises the zero-records stop). -/
def emptyPageNet : Net := fun _ => some (mkPageResp [] (some 1))

/-- A backend whose every page has one record but no next-page token
(exercises the no-token stop). -/
def noTokNet : Net := fun _ => some (mkPageResp [Json.num 1] none)

/-- Three VM records for the `find_vm` witness; the first differs from
the looked-up name only in case, the last two share the exact name. -/
def vmA : Json :=
  Json.obj [("id", Json.str "id-1"), ("name", Json.str "Web-Server-01")]

def vmB : Json :=
  Json.obj [("id", Json.str "id-2"), ("name", Json.str "web-server-01")]

def vmC : Json :=
  Json.obj [("id", Json.str "id-3"), ("name", Json.str "web-server-01")]

/-- A backend with a single VM page `[vmA, vmB, vmC]` that also answers
the detail lookup for `vmB`'s id. -/
def findDemoNet : Net := fun r =>
  if r = pageReq 0 then some (mkPageResp [vmA, vmB, vmC] none)
  else if r = vmDetailsReq "id-2" then
    some (Json.obj [("detail", Json.str "vmB")])
  else none

/-- The one-zone zone list of the report fixtures. -/
def demoAz : List AZRec := [⟨some "zone1"⟩]

/-- A VM counted by the report, with the given provisioned memory (MB). -/
def memVm (mb : ℚ) : VMRec :=
  ⟨some "zone1", some "running", some 2, some mb, some [], none, none, none⟩

/-- The three VMs of the rounding claim: 1536, 2048 and 513 MB. -/
def c3vms : List VMRec := [memVm 1536, memVm 2048, memVm 513]

/-- A VM whose `az_name` is absent (skipped by the report). -/
def vmNoZone : VMRec :=
  ⟨none, some "running", some 4, some 8192, some [⟨some 1024⟩], none, none, none⟩

/-- A VM whose `az_name` does not appear in the fetched zone list. -/
def vmUnknownZone : VMRec :=
  ⟨some "zone9", some "stopped", some 8, some 4096, some [⟨some 2048⟩],
   some ⟨some 100⟩, some ⟨some 512⟩, some ⟨some 256⟩⟩

/-! ## Theorems -/

set_option maxRecDepth 100000

/-- Helper: `get_vms` called the way the pagination loop calls it issues
exactly the fixed-size page request. -/
theorem get_vms_page (n : Net) (p : Int) :
    get_vms n (some p) (some 100) = (n (pageReq p), pageReq p) := rfl

/-- Helper: every successful run of the pagination loop issues the request
for its starting page first, and only appends to the incoming log. -/
theorem getAllVmsLoop_log_shape (net : Net) :
    ∀ (fuel : Nat) (page : Int) (acc : List Json) (log : List Req)
      (res : List Json × List Req),
      getAllVmsLoop net (fuel + 1) page acc log = Except.ok res →
      ∃ rest, res.2 = log ++ pageReq page :: rest := by
  intro fuel
  induction fuel with
  | zero =>
    intro page acc log res h
    simp only [getAllVmsLoop, get_vms_page] at h
    split at h
    · split at h
      · split at h
        · split at h
          · exact absurd h (by simp [getAllVmsLoop])
          · exact absurd h (by simp)
        · exact absurd h (by simp)
      · cases h
        exact ⟨[], by simp⟩
    · cases h
      exact ⟨[], by simp⟩
  | succ fuel ih =>
    intro page acc log res h
    simp only [getAllVmsLoop, get_vms_page] at h
    split at h
    · split at h
      · split at h
        · split at h
          · rename_i n hn
            obtain ⟨rest, hrest⟩ := ih _ _ _ _ h
            exact ⟨pageReq n :: rest, by rw [hrest]; simp⟩
          · exact absurd h (by simp)
        · exact absurd h (by simp)
      · cases h
        exact ⟨[], by simp⟩
    · cases h
      exact ⟨[], by simp⟩


/-- Helper: the `%Ym%d` format expands to year, a literal `m`, then the
zero-padded day. -/
theorem datestampOf_eq (t : UtcTime) :
    datestampOf t = toString t.year ++ "m" ++ two t.day := by
  simp [datestampOf, strftime, strftimeList, strftimeDirective, String.singleton]
  rw [show ("".push 'm') = "m" from rfl, String.append_assoc]

/-- C1 (counterexample): the claim states the date stamp is the four-digit
year, then a literal `%` as the day-of-month separator, then the two-digit
day.  At the concrete UTC time 2026-10-12 09:30:00 the code's date stamp
(`t.strftime('%Ym%d')`) is `"2026m12"`, not `"2026%12"`: in the format
string, `%Y` and `%d` are directives and the separator is the literal
character `m`, not `%`. -/
theorem c1_counterexample :
    datestampOf ⟨2026, 10, 12, 9, 30, 0⟩ = "2026m12" ∧
    datestampOf ⟨2026, 10, 12, 9, 30, 0⟩ ≠ "2026" ++ "%" ++ "12" := by
  exact ⟨by decide, by decide⟩

/-- C1 (amended): the date stamp used in the signing-key derivation and
credential scope is the request's UTC year rendered in decimal, then a
literal lowercase letter `m` as the day-of-month separator, then the
zero-padded two-digit day of month. -/
theorem c1_datestamp_literal_m_separator (t : UtcTime) :
    datestampOf t = toString t.year ++ "m" ++ two t.day ∧
    ∀ (H : HashFns) (c : Creds) (r : SignRequest),
      (ec2SignCall H c t r).credential_scope =
        (toString t.year ++ "m" ++ two t.day) ++ "/" ++ c.region ++ "/" ++
          c.service ++ "/aws4_request" ∧
      (ec2SignCall H c t r).signing_key =
        _get_signature_key H c.secret_key
          (toString t.year ++ "m" ++ two t.day) c.region c.service := by
  have h := datestampOf_eq t
  refine ⟨h, fun H c r => ⟨?_, ?_⟩⟩
  · show datestampOf t ++ "/" ++ c.region ++ "/" ++ c.service ++
      "/aws4_request" = _
    rw [h]
  · show _get_signature_key H c.secret_key (datestampOf t) c.region
      c.service = _
    rw [h]

/-- C4: for any two signed requests that are identical in method, path,
netloc (whence the Host header), headers, body, credentials and timestamp
but differ arbitrarily in their query component, the canonical query
string is the empty string in both runs and the computed signature and
Authorization header are byte-identical. -/
theorem c4_signature_ignores_query_params (H : HashFns) (c : Creds)
    (t : UtcTime) (r1 r2 : SignRequest)
    (hm : r1.method = r2.method) (hn : r1.urlNetloc = r2.urlNetloc)
    (hp : r1.urlPath = r2.urlPath) (hh : r1.headers = r2.headers)
    (hb : r1.body = r2.body) :
    (ec2SignCall H c t r1).canonical_querystring = "" ∧
    (ec2SignCall H c t r2).canonical_querystring = "" ∧
    (ec2SignCall H c t r1).signature = (ec2SignCall H c t r2).signature ∧
    (ec2SignCall H c t r1).authorization_header =
      (ec2SignCall H c t r2).authorization_header := by
  obtain ⟨m1, n1, p1, q1, h1, b1⟩ := r1
  obtain ⟨m2, n2, p2, q2, h2, b2⟩ := r2
  simp only at hm hn hp hh hb
  subst hm hn hp hh hb
  exact ⟨rfl, rfl, rfl, rfl⟩

/-- C4 (witness): the theorem applied to two concrete requests that differ
only in their query strings. -/
theorem c4_witness :
    (ec2SignCall demoHashFns demoCreds demoTime demoSignReqA).canonical_querystring = "" ∧
    (ec2SignCall demoHashFns demoCreds demoTime demoSignReqB).canonical_querystring = "" ∧
    (ec2SignCall demoHashFns demoCreds demoTime demoSignReqA).signature =
      (ec2SignCall demoHashFns demoCreds demoTime demoSignReqB).signature ∧
    (ec2SignCall demoHashFns demoCreds demoTime demoSignReqA).authorization_header =
      (ec2SignCall demoHashFns demoCreds demoTime demoSignReqB).authorization_header :=
  c4_signature_ignores_query_params demoHashFns demoCreds demoTime
    demoSignReqA demoSignReqB rfl rfl rfl rfl rfl

/-- C6 (counterexample): on an HTTP error status whose body is not
JSON-decodable, `send_request` does not return a value: the second
`response.json()` call inside the `except HTTPError` handler raises
`json.JSONDecodeError`, and the sibling `except` clauses of the same
`try` do not catch exceptions raised inside a handler, so it propagates —
contradicting the claim that transport- and decode-level failures are
never propagated as exceptions. -/
theorem c6_counterexample :
    send_request (TransportOutcome.response 500 none) =
      Except.error PyErr.jsonDecodeError ∧
    ¬ ∃ v, send_request (TransportOutcome.response 500 none) = Except.ok v := by
  refine ⟨rfl, ?_⟩
  rintro ⟨v, hv⟩
  simp [send_request] at hv

/-- C6 (amended): `send_request` returns the JSON-decoded body on HTTP
success; on an HTTP-level error status (400-599) it returns the parsed
error body when that body is JSON-decodable, rather than raising; on a
connection/transport failure it returns `None`; on a non-JSON success
body it returns `None`; but on an HTTP error status with a non-JSON body
the decode failure propagates as a `JSONDecodeError` exception. -/
theorem c6_send_request_spec :
    (∀ (status : Nat) (j : Json),
        send_request (TransportOutcome.response status (some j)) =
          Except.ok (some j)) ∧
    send_request TransportOutcome.connectionFailure = Except.ok none ∧
    (∀ status : Nat, ¬ (400 ≤ status ∧ status < 600) →
        send_request (TransportOutcome.response status none) =
          Except.ok none) ∧
    (∀ status : Nat, 400 ≤ status → status < 600 →
        send_request (TransportOutcome.response status none) =
          Except.error PyErr.jsonDecodeError) := by
  refine ⟨fun status j => ?_, rfl, fun status h => ?_, fun status h1 h2 => ?_⟩
  · simp only [send_request]
    split <;> rfl
  · simp only [send_request]
    rw [if_neg h]
  · simp only [send_request]
    rw [if_pos ⟨h1, h2⟩]

/-- C6 (witness): the amended theorem evaluated at a 200-with-JSON
response, a connection failure, a 200-with-undecodable-body response and
a 500-with-undecodable-body response. -/
theorem c6_witness :
    send_request (TransportOutcome.response 200 (some Json.null)) =
      Except.ok (some Json.null) ∧
    send_request TransportOutcome.connectionFailure = Except.ok none ∧
    send_request (TransportOutcome.response 200 none) = Except.ok none ∧
    send_request (TransportOutcome.response 500 none) =
      Except.error PyErr.jsonDecodeError :=
  ⟨c6_send_request_spec.1 200 Json.null,
   c6_send_request_spec.2.1,
   c6_send_request_spec.2.2.1 200 (by decide),
   c6_send_request_spec.2.2.2 500 (by decide) (by decide)⟩

/-- C9: `get_vm_details`, `get_vm_snapshots` and `get_vm_backups` each
raise `ValueError` when `vm_id` is empty (Python: falsy, which also
covers a missing/`None` argument), with no request issued — and, since
none of the three methods touches the cache slot (the only mutable client
state), client state is unchanged; for every non-empty `vm_id` each
performs exactly one GET with the id interpolated into its path. -/
theorem c9_vm_id_required (net : Net) (vm_id : String) (h : vm_id ≠ "") :
    (get_vm_details net "" = (Except.error PyErr.valueError, []) ∧
     get_vm_snapshots net "" = (Except.error PyErr.valueError, []) ∧
     get_vm_backups net "" = (Except.error PyErr.valueError, [])) ∧
    (get_vm_details net vm_id =
       (Except.ok (net (vmDetailsReq vm_id)), [vmDetailsReq vm_id]) ∧
     get_vm_snapshots net vm_id =
       (Except.ok (net (vmSnapshotsReq vm_id)), [vmSnapshotsReq vm_id]) ∧
     get_vm_backups net vm_id =
       (Except.ok (net (vmBackupsReq vm_id)), [vmBackupsReq vm_id])) ∧
    vmDetailsReq vm_id =
      ⟨"GET", "/janus/20190725/servers/" ++ vm_id, []⟩ ∧
    vmSnapshotsReq vm_id =
      ⟨"GET", "/janus/20190725/servers/" ++ vm_id ++ "/snapshots", []⟩ ∧
    vmBackupsReq vm_id =
      ⟨"GET", "/janus/20190725/servers/" ++ vm_id ++ "/backups", []⟩ := by
  refine ⟨⟨rfl, rfl, rfl⟩, ⟨?_, ?_, ?_⟩, rfl, rfl, rfl⟩
  · simp only [get_vm_details]
    rw [if_neg h]
  · simp only [get_vm_snapshots]
    rw [if_neg h]
  · simp only [get_vm_backups]
    rw [if_neg h]

/-- C9 (witness): the theorem evaluated at a concrete transport and the
non-empty id `"vm-1"`. -/
theorem c9_witness :
    (get_vm_details nullNet "" = (Except.error PyErr.valueError, []) ∧
     get_vm_snapshots nullNet "" = (Except.error PyErr.valueError, []) ∧
     get_vm_backups nullNet "" = (Except.error PyErr.valueError, [])) ∧
    (get_vm_details nullNet "vm-1" =
       (Except.ok (nullNet (vmDetailsReq "vm-1")), [vmDetailsReq "vm-1"]) ∧
     get_vm_snapshots nullNet "vm-1" =
       (Except.ok (nullNet (vmSnapshotsReq "vm-1")), [vmSnapshotsReq "vm-1"]) ∧
     get_vm_backups nullNet "vm-1" =
       (Except.ok (nullNet (vmBackupsReq "vm-1")), [vmBackupsReq "vm-1"])) ∧
    vmDetailsReq "vm-1" =
      ⟨"GET", "/janus/20190725/servers/" ++ "vm-1", []⟩ ∧
    vmSnapshotsReq "vm-1" =
      ⟨"GET", "/janus/20190725/servers/" ++ "vm-1" ++ "/snapshots", []⟩ ∧
    vmBackupsReq "vm-1" =
      ⟨"GET", "/janus/20190725/servers/" ++ "vm-1" ++ "/backups", []⟩ :=
  c9_vm_id_required nullNet "vm-1" (by decide)

/-- C2: starting with an unpopulated cache, `get_all_vms` requests pages
starting at page number 0 with a fixed page size of 100 (the request log
below records `page_num` / `page_size` parameters of every page request);
against a backend returning pages of sizes [100, 100, 37, 0] with
next-page tokens on the first three, it returns exactly 237 records in
server order and issues exactly 4 page requests.  Moreover one loop step
stops the scan as soon as the response fails the well-formedness guard,
as soon as a well-formed page carries zero records, or as soon as the
next-page token is missing/falsy. -/
theorem c2_pagination (net : Net) (fuel : Nat) (page : Int)
    (acc : List Json) (log : List Req)
    (hbad : pageOk (net (pageReq page)) = false)
    (net2 : Net) (hok2 : pageOk (net2 (pageReq page)) = true)
    (hempty2 : pageRecords (net2 (pageReq page)) = [])
    (net3 : Net) (hok3 : pageOk (net3 (pageReq page)) = true)
    (htok3 : optTruthy (nextPageTok (net3 (pageReq page))) = false) :
    get_all_vms demoNet ⟨none⟩ true 10 =
      Except.ok (demoAll, ⟨some demoAll⟩, demoLog) ∧
    demoAll.length = 237 ∧
    demoLog = [pageReq 0, pageReq 1, pageReq 2, pageReq 3] ∧
    demoLog.length = 4 ∧
    (∀ (net0 : Net) (u : Bool) (fuel0 : Nat) (vms : List Json)
        (st2 : ClientState) (log0 : List Req),
        get_all_vms net0 ⟨none⟩ u (fuel0 + 1) =
          Except.ok (vms, st2, log0) →
        ∃ rest, log0 = pageReq 0 :: rest) ∧
    getAllVmsLoop net (fuel + 1) page acc log =
      Except.ok (acc, log ++ [pageReq page]) ∧
    getAllVmsLoop net2 (fuel + 1) page acc log =
      Except.ok (acc, log ++ [pageReq page]) ∧
    getAllVmsLoop net3 (fuel + 1) page acc log =
      Except.ok (acc ++ pageRecords (net3 (pageReq page)),
        log ++ [pageReq page]) := by
  have hstep : ∀ (n : Net) (p : Int),
      get_vms n (some p) (some 100) = (n (pageReq p), pageReq p) :=
    fun n p => rfl
  refine ⟨rfl, by rfl, rfl, rfl, ?_, ?_, ?_, ?_⟩
  · intro net0 u fuel0 vms st2 log0 h
    have hs : get_all_vms net0 ⟨none⟩ u (fuel0 + 1) =
        (match getAllVmsLoop net0 (fuel0 + 1) 0 [] [] with
         | Except.ok (v, l) =>
             (Except.ok (v, ⟨some v⟩, l) : Except Unit
               (List Json × ClientState × List Req))
         | Except.error e => Except.error e) := by
      cases u
      · rfl
      · rfl
    rw [hs] at h
    rcases hl : getAllVmsLoop net0 (fuel0 + 1) 0 [] [] with e | ⟨v, l⟩ <;>
      rw [hl] at h
    · exact absurd h (by simp)
    · simp only [Except.ok.injEq, Prod.mk.injEq] at h
      obtain ⟨h1, h2, h3⟩ := h
      obtain ⟨rest, hrest⟩ :=
        getAllVmsLoop_log_shape net0 fuel0 0 [] [] (v, l) hl
      refine ⟨rest, ?_⟩
      rw [← h3]
      simpa using hrest
  · simp only [getAllVmsLoop, hstep, hbad]
    simp
  · simp only [getAllVmsLoop, hstep, hok2, hempty2]
    simp
  · simp only [getAllVmsLoop, hstep, hok3, htok3]
    simp

/-- C2 (witness): the stop-condition conjuncts evaluated against three
concrete one-page backends (connection failure, empty page with a token,
non-empty page without a token), together with the concrete 4-page run. -/
theorem c2_witness :
    (∃ rest, [pageReq 0] = pageReq 0 :: rest) ∧
    getAllVmsLoop nullNet (0 + 1) 0 [] [] =
      Except.ok ([], [] ++ [pageReq 0]) ∧
    getAllVmsLoop emptyPageNet (0 + 1) 0 [] [] =
      Except.ok ([], [] ++ [pageReq 0]) ∧
    getAllVmsLoop noTokNet (0 + 1) 0 [] [] =
      Except.ok ([] ++ pageRecords (noTokNet (pageReq 0)),
        [] ++ [pageReq 0]) :=
  ⟨(c2_pagination nullNet 0 0 [] [] rfl emptyPageNet rfl rfl noTokNet rfl
      rfl).2.2.2.2.1 noTokNet true 0 [Json.num 1] ⟨some [Json.num 1]⟩
      [pageReq 0] rfl,
   (c2_pagination nullNet 0 0 [] [] rfl emptyPageNet rfl rfl noTokNet rfl
      rfl).2.2.2.2.2.1,
   (c2_pagination nullNet 0 0 [] [] rfl emptyPageNet rfl rfl noTokNet rfl
      rfl).2.2.2.2.2.2.1,
   (c2_pagination nullNet 0 0 [] [] rfl emptyPageNet rfl rfl noTokNet rfl
      rfl).2.2.2.2.2.2.2⟩

/-- C5: if the VM cache is populated and `use_cache` is true,
`get_all_vms` returns the cached list immediately with no requests;
whenever it performs a scan (cache empty or `use_cache` false) it stores
the final accumulated list into the cache regardless of the `use_cache`
argument; consequently, after any successful `get_all_vms(use_cache=True)`
call, a second `use_cache=True` call with no intervening writes returns
the same list and issues no requests. -/
theorem c5_cache_behavior :
    (∀ (net : Net) (st : ClientState) (cached : List Json) (fuel : Nat),
        st.all_vms_cache = some cached →
        get_all_vms net st true fuel = Except.ok (cached, st, [])) ∧
    (∀ (net : Net) (st : ClientState) (u : Bool) (fuel : Nat)
        (vms : List Json) (st2 : ClientState) (log : List Req),
        u = false ∨ st.all_vms_cache = none →
        get_all_vms net st u fuel = Except.ok (vms, st2, log) →
        st2 = ⟨some vms⟩) ∧
    (∀ (net : Net) (st : ClientState) (fuel fuel2 : Nat)
        (vms : List Json) (st2 : ClientState) (log : List Req),
        get_all_vms net st true fuel = Except.ok (vms, st2, log) →
        get_all_vms net st2 true fuel2 = Except.ok (vms, st2, [])) := by
  have hscan : ∀ (net : Net) (st : ClientState) (u : Bool) (fuel : Nat),
      u = false ∨ st.all_vms_cache = none →
      get_all_vms net st u fuel =
        (match getAllVmsLoop net fuel 0 [] [] with
         | Except.ok (v, l) => Except.ok (v, ⟨some v⟩, l)
         | Except.error e => Except.error e) := by
    intro net st u fuel hu
    rcases hu with hu | hu
    · rw [hu]
      rfl
    · rcases u with _ | _
      · rfl
      · simp [get_all_vms, hu]
  have hstores : ∀ (net : Net) (st : ClientState) (u : Bool) (fuel : Nat)
      (vms : List Json) (st2 : ClientState) (log : List Req),
      u = false ∨ st.all_vms_cache = none →
      get_all_vms net st u fuel = Except.ok (vms, st2, log) →
      st2 = ⟨some vms⟩ := by
    intro net st u fuel vms st2 log hu h
    rw [hscan net st u fuel hu] at h
    rcases hl : getAllVmsLoop net fuel 0 [] [] with e | ⟨v, l⟩ <;>
      rw [hl] at h
    · exact absurd h (by simp)
    · simp only [Except.ok.injEq, Prod.mk.injEq] at h
      obtain ⟨h1, h2, h3⟩ := h
      rw [← h2, h1]
  refine ⟨?_, hstores, ?_⟩
  · intro net st cached fuel hc
    simp [get_all_vms, hc]
  · intro net st fuel fuel2 vms st2 log h
    rcases hc : st.all_vms_cache with _ | cached
    · have hst2 : st2 = ⟨some vms⟩ :=
        hstores net st true fuel vms st2 log (Or.inr hc) h
      rw [hst2]
      simp [get_all_vms]
    · have h2 := h
      simp only [get_all_vms, if_true, hc] at h2
      simp only [Except.ok.injEq, Prod.mk.injEq] at h2
      obtain ⟨h3, h4, h5⟩ := h2
      rw [← h4, ← h3]
      simp [get_all_vms, hc]

/-- C5 (witness): a populated-cache call returns the cache with no
requests; an uncached scan stores its result; a repeated cached call
after a first cached call issues no requests. -/
theorem c5_witness :
    get_all_vms noTokNet ⟨some [Json.num 5]⟩ true 1 =
      Except.ok ([Json.num 5], ⟨some [Json.num 5]⟩, []) ∧
    (⟨some [Json.num 1]⟩ : ClientState) = ⟨some [Json.num 1]⟩ ∧
    get_all_vms noTokNet ⟨some [Json.num 1]⟩ true 0 =
      Except.ok ([Json.num 1], ⟨some [Json.num 1]⟩, []) :=
  ⟨c5_cache_behavior.1 noTokNet ⟨some [Json.num 5]⟩ [Json.num 5] 1 rfl,
   c5_cache_behavior.2.1 noTokNet ⟨none⟩ false 1 [Json.num 1]
     ⟨some [Json.num 1]⟩ [pageReq 0] (Or.inl rfl) rfl,
   c5_cache_behavior.2.2 noTokNet ⟨none⟩ 1 0 [Json.num 1]
     ⟨some [Json.num 1]⟩ [pageReq 0] rfl⟩

/-- C10: after an uncached scan whose very first page response fails the
well-formedness guard (e.g. a transport failure), `get_all_vms` stores
the empty accumulated list in the cache; because cache-populatedness is
tested as the slot being not-`None`, every subsequent
`get_all_vms(use_cache=True)` call returns that empty list with no
requests, while a `use_cache=False` call bypasses the stale slot,
issues the page-0 request again and re-stores whatever it accumulates. -/
theorem c10_empty_scan_poisons_cache :
    (∀ (net : Net) (fuel : Nat),
        pageOk (net (pageReq 0)) = false →
        get_all_vms net ⟨none⟩ true (fuel + 1) =
          Except.ok ([], ⟨some []⟩, [pageReq 0])) ∧
    (∀ (net : Net) (fuel : Nat),
        get_all_vms net ⟨some []⟩ true fuel =
          Except.ok ([], ⟨some []⟩, [])) ∧
    (∀ (net : Net) (fuel : Nat) (vms : List Json) (st2 : ClientState)
        (log : List Req),
        get_all_vms net ⟨some []⟩ false (fuel + 1) =
          Except.ok (vms, st2, log) →
        st2 = ⟨some vms⟩ ∧ ∃ rest, log = pageReq 0 :: rest) := by
  refine ⟨?_, ?_, ?_⟩
  · intro net fuel h
    have hloop : getAllVmsLoop net (fuel + 1) 0 [] [] =
        Except.ok ([], [pageReq 0]) := by
      simp only [getAllVmsLoop, get_vms_page, h]
      simp
    simp [get_all_vms, hloop]
  · intro net fuel
    simp [get_all_vms]
  · intro net fuel vms st2 log h
    have hs : get_all_vms net ⟨some []⟩ false (fuel + 1) =
        (match getAllVmsLoop net (fuel + 1) 0 [] [] with
         | Except.ok (v, l) =>
             (Except.ok (v, ⟨some v⟩, l) : Except Unit
               (List Json × ClientState × List Req))
         | Except.error e => Except.error e) := rfl
    rw [hs] at h
    rcases hl : getAllVmsLoop net (fuel + 1) 0 [] [] with e | ⟨v, l⟩ <;>
      rw [hl] at h
    · exact absurd h (by simp)
    · simp only [Except.ok.injEq, Prod.mk.injEq] at h
      obtain ⟨h1, h2, h3⟩ := h
      obtain ⟨rest, hrest⟩ := getAllVmsLoop_log_shape net fuel 0 [] [] (v, l) hl
      refine ⟨by rw [← h2, h1], rest, ?_⟩
      rw [← h3]
      simpa using hrest

/-- C10 (witness): a dead transport scanned once with `use_cache=True`
caches `[]`; the next cached call issues nothing; a `use_cache=False`
call against a live one-page backend re-scans and refreshes the slot. -/
theorem c10_witness :
    get_all_vms nullNet ⟨none⟩ true (0 + 1) =
      Except.ok ([], ⟨some []⟩, [pageReq 0]) ∧
    get_all_vms nullNet ⟨some []⟩ true 5 =
      Except.ok ([], ⟨some []⟩, []) ∧
    ((⟨some [Json.num 1]⟩ : ClientState) = ⟨some [Json.num 1]⟩ ∧
      ∃ rest, [pageReq 0] = pageReq 0 :: rest) :=
  ⟨c10_empty_scan_poisons_cache.1 nullNet 0 rfl,
   c10_empty_scan_poisons_cache.2.1 nullNet 5,
   c10_empty_scan_poisons_cache.2.2 noTokNet 0 [Json.num 1]
     ⟨some [Json.num 1]⟩ [pageReq 0] rfl⟩

/-- Helper: deep `==` against a string value holds exactly for that
string value. -/
theorem json_beq_str (j : Json) (s : String) :
    Json.beq j (Json.str s) = true ↔ j = Json.str s := by
  cases j <;> simp [Json.beq]

/-- Helper: the Python name comparison succeeds exactly when the
retrieved field is that string. -/
theorem pyEqStr_iff (o : Option Json) (s : String) :
    pyEqStr o s = true ↔ o = some (Json.str s) := by
  cases o with
  | none => simp [pyEqStr]
  | some v => simp [pyEqStr, json_beq_str]

/-- Helper: distinct strings give distinct JSON string values. -/
theorem some_str_ne (a b : String) (h : ¬ a = b) :
    some (Json.str a) ≠ some (Json.str b) := by
  intro hc
  injection hc with hc2
  injection hc2 with hc3
  exact h hc3

/-- Helper: `find?` returns the head of the first matching suffix when
nothing before it matches. -/
theorem find?_first {α : Type} (p : α → Bool) :
    ∀ (l1 : List α) (x : α) (l2 : List α), p x = true →
      (∀ u ∈ l1, p u = false) → (l1 ++ x :: l2).find? p = some x := by
  intro l1
  induction l1 with
  | nil =>
    intro x l2 hx _
    simp [List.find?, hx]
  | cons a l1 ih =>
    intro x l2 hx hnone
    have ha : p a = false := hnone a (List.mem_cons_self a l1)
    simp only [List.cons_append, List.find?, ha]
    exact ih x l2 hx (fun u hu => hnone u (List.mem_cons_of_mem a hu))

/-- C7: an identifier with exactly 5 hyphen-delimited segments is treated
as an id: `find_vm` performs the direct detail lookup only, with the
client state untouched (no scan); the two concrete identifiers of the
spec fall on the expected sides of the heuristic.  Any other identifier
routes through `get_all_vms` (the full scan, served from cache when one
is populated since the call uses the default `use_cache=True`): if no VM
has exactly (case-sensitively) the identifier as its `name`, the result
is the nothing-found signal `none`; otherwise the first such VM's `id`
is looked up with one further detail request. -/
theorem c7_find_vm_routing :
    (∀ (net : Net) (st : ClientState) (identifier : String) (fuel : Nat),
        (pySplit identifier '-').length = 5 →
        find_vm net st identifier fuel =
          Except.ok (net (vmDetailsReq identifier), st,
            [vmDetailsReq identifier])) ∧
    (pySplit "550e8400-e29b-41d4-a716-446655440000" '-').length = 5 ∧
    (pySplit "web-server-01" '-').length ≠ 5 ∧
    (∀ (net : Net) (st : ClientState) (identifier : String) (fuel : Nat)
        (vmList : List Json) (st2 : ClientState) (log : List Req),
        (pySplit identifier '-').length ≠ 5 →
        get_all_vms net st true fuel = Except.ok (vmList, st2, log) →
        ((∀ vm ∈ vmList, vm.get "name" ≠ some (Json.str identifier)) →
          find_vm net st identifier fuel = Except.ok (none, st2, log)) ∧
        (∀ (l1 l2 : List Json) (vm : Json) (vid : String),
          vmList = l1 ++ vm :: l2 →
          vm.get "name" = some (Json.str identifier) →
          (∀ u ∈ l1, u.get "name" ≠ some (Json.str identifier)) →
          vm.get "id" = some (Json.str vid) →
          vid ≠ "" →
          find_vm net st identifier fuel =
            Except.ok (net (vmDetailsReq vid), st2,
              log ++ [vmDetailsReq vid]))) := by
  refine ⟨?_, by decide, by decide, ?_⟩
  · intro net st identifier fuel h5
    have hne : identifier ≠ "" := by
      intro he
      rw [he] at h5
      exact absurd h5 (by decide)
    simp only [find_vm, if_pos h5, get_vm_details, if_neg hne]
  · intro net st identifier fuel vmList st2 log h5 hscan
    constructor
    · intro hnone
      have hfind : vmList.find?
          (fun vm => pyEqStr (vm.get "name") identifier) = none := by
        rw [List.find?_eq_none]
        intro x hx
        rw [pyEqStr_iff]
        exact hnone x hx
      simp only [find_vm, if_neg h5, hscan, hfind]
    · intro l1 l2 vm vid hsplit hname hbefore hid hvid
      have hfind : vmList.find?
          (fun vm => pyEqStr (vm.get "name") identifier) = some vm := by
        rw [hsplit]
        refine find?_first _ l1 vm l2 ((pyEqStr_iff _ _).mpr hname) ?_
        intro u hu
        rw [← Bool.not_eq_true, pyEqStr_iff]
        exact hbefore u hu
      have hvm : vmIdString vm = vid := by
        simp [vmIdString, hid]
      simp only [find_vm, if_neg h5, hscan, hfind, hvm, get_vm_details,
        if_neg hvid]

/-- C7 (witness): against the three-VM backend, the id-shaped identifier
routes to a direct detail lookup without a scan; the name `"db-01"` has
no exact match and yields `none`; the name `"web-server-01"` skips the
case-differing first VM and fetches details of the second VM (the first
exact match). -/
theorem c7_witness :
    find_vm findDemoNet ⟨none⟩ "550e8400-e29b-41d4-a716-446655440000" 1 =
      Except.ok
        (findDemoNet (vmDetailsReq "550e8400-e29b-41d4-a716-446655440000"),
         ⟨none⟩, [vmDetailsReq "550e8400-e29b-41d4-a716-446655440000"]) ∧
    find_vm findDemoNet ⟨none⟩ "db-01" 1 =
      Except.ok (none, ⟨some [vmA, vmB, vmC]⟩, [pageReq 0]) ∧
    find_vm findDemoNet ⟨none⟩ "web-server-01" 1 =
      Except.ok (findDemoNet (vmDetailsReq "id-2"),
        ⟨some [vmA, vmB, vmC]⟩, [pageReq 0] ++ [vmDetailsReq "id-2"]) := by
  refine ⟨c7_find_vm_routing.1 findDemoNet ⟨none⟩ _ 1 (by decide), ?_, ?_⟩
  · refine ((c7_find_vm_routing.2.2.2 findDemoNet ⟨none⟩ "db-01" 1
      [vmA, vmB, vmC] ⟨some [vmA, vmB, vmC]⟩ [pageReq 0]
      (by decide) rfl).1) ?_
    intro u hu
    rcases List.mem_cons.mp hu with rfl | hu
    · rw [show vmA.get "name" = some (Json.str "Web-Server-01") from rfl]
      exact some_str_ne _ _ (by decide)
    rcases List.mem_cons.mp hu with rfl | hu
    · rw [show vmB.get "name" = some (Json.str "web-server-01") from rfl]
      exact some_str_ne _ _ (by decide)
    rcases List.mem_cons.mp hu with rfl | hu
    · rw [show vmC.get "name" = some (Json.str "web-server-01") from rfl]
      exact some_str_ne _ _ (by decide)
    · cases hu
  · refine ((c7_find_vm_routing.2.2.2 findDemoNet ⟨none⟩ "web-server-01" 1
      [vmA, vmB, vmC] ⟨some [vmA, vmB, vmC]⟩ [pageReq 0]
      (by decide) rfl).2) [vmA] [vmC] vmB "id-2" rfl rfl ?_ rfl (by decide)
    intro u hu
    rcases List.mem_cons.mp hu with rfl | hu
    · rw [show vmA.get "name" = some (Json.str "Web-Server-01") from rfl]
      exact some_str_ne _ _ (by decide)
    · cases hu

/-- Helper: the per-zone update of one VM touches values only, never the
zone keys. -/
theorem zonesUpd_fst (l : List (String × TotalsBlock)) (name : String)
    (f : TotalsBlock → TotalsBlock) :
    (l.map (fun p => if p.1 = name then (p.1, f p.2) else p)).map Prod.fst =
      l.map Prod.fst := by
  induction l with
  | nil => rfl
  | cons a l ih =>
    simp only [List.map_cons, ih, List.cons.injEq, and_true]
    by_cases h : a.1 = name <;> simp [h]

/-- Helper: `lookup` success depends only on the key list. -/
theorem lookup_isSome_of_fst_eq {β γ : Type} :
    ∀ (l1 : List (String × β)) (l2 : List (String × γ)),
      l1.map Prod.fst = l2.map Prod.fst → ∀ a : String,
      (l1.lookup a).isSome = (l2.lookup a).isSome := by
  intro l1
  induction l1 with
  | nil =>
    intro l2 h a
    cases l2 with
    | nil => rfl
    | cons y l2 => simp at h
  | cons x l1 ih =>
    intro l2 h a
    cases l2 with
    | nil => simp at h
    | cons y l2 =>
      obtain ⟨k1, v1⟩ := x
      obtain ⟨k2, v2⟩ := y
      simp only [List.map_cons, List.cons.injEq] at h
      obtain ⟨h1, h2⟩ := h
      subst h1
      simp only [List.lookup]
      cases hak : a == k1
      · exact ih l2 h2 a
      · rfl

/-- Helper: whether a VM is skipped depends only on the zone keys. -/
theorem vmSkipped_congr (z1 z2 : List (String × TotalsBlock)) (vm : VMRec)
    (h : z1.map Prod.fst = z2.map Prod.fst) :
    vmSkipped z1 vm = vmSkipped z2 vm := by
  cases haz : vm.az_name with
  | none => simp [vmSkipped, haz]
  | some az =>
    simp [vmSkipped, haz, lookup_isSome_of_fst_eq z1 z2 h az]

/-- Helper: one aggregation step preserves the zone keys. -/
theorem processVM_zones_fst (r : Report) (vm : VMRec) :
    (processVM r vm).by_availability_zone.map Prod.fst =
      r.by_availability_zone.map Prod.fst := by
  by_cases h : vmSkipped r.by_availability_zone vm = true
  · simp [processVM, h]
  · rw [Bool.not_eq_true] at h
    simp only [processVM, h, Bool.false_eq_true, if_false]
    exact zonesUpd_fst _ _ _

/-- Helper: the whole fold preserves the zone keys. -/
theorem foldl_zones_fst :
    ∀ (vms : List VMRec) (r : Report),
      ((vms.foldl processVM r).by_availability_zone).map Prod.fst =
        (r.by_availability_zone).map Prod.fst := by
  intro vms
  induction vms with
  | nil => intro r; rfl
  | cons vm vms ih =>
    intro r
    rw [List.foldl_cons, ih (processVM r vm), processVM_zones_fst]

/-- Helper: the overall provisioned-memory total accumulates, at full
precision, `memory_mb / 1024` over exactly the non-skipped VMs. -/
theorem foldl_memory_acc (az0 : List (String × TotalsBlock)) :
    ∀ (vms : List VMRec) (r : Report),
      r.by_availability_zone.map Prod.fst = az0.map Prod.fst →
      ((vms.foldl processVM r).overall_totals.total_provisioned.memory_gb) =
        r.overall_totals.total_provisioned.memory_gb +
          ((vms.filter (fun vm => !vmSkipped az0 vm)).map
            (fun vm => vm.memory_mb.getD 0 / 1024)).sum := by
  intro vms
  induction vms with
  | nil =>
    intro r h
    simp
  | cons vm vms ih =>
    intro r h
    simp only [List.foldl_cons, List.filter_cons]
    by_cases hs : vmSkipped az0 vm = true
    · have hr : vmSkipped r.by_availability_zone vm = true := by
        rw [vmSkipped_congr _ az0 vm h]
        exact hs
      rw [show processVM r vm = r from by simp [processVM, hr]]
      rw [ih r h]
      simp [hs]
    · rw [Bool.not_eq_true] at hs
      have hr : vmSkipped r.by_availability_zone vm = false := by
        rw [vmSkipped_congr _ az0 vm h]
        exact hs
      rw [ih (processVM r vm)
        (by rw [processVM_zones_fst]; exact h)]
      have hmem : (processVM r vm).overall_totals.total_provisioned.memory_gb =
          r.overall_totals.total_provisioned.memory_gb +
            vm.memory_mb.getD 0 / 1024 := by
        simp [processVM, hr, addVmToBlock]
      rw [hmem, hs]
      simp [add_assoc]

/-- C3 (counterexample): aggregating the three VMs with memory 1536, 2048
and 513 MB gives the exact sum 4097/1024 GB = 4.0009765625 GB, and the
single final `round(x, 2)` yields exactly 4.0 GB — not 3.99 GB as the
claim states (no rounding order produces 3.99 from these inputs). -/
theorem c3_counterexample :
    (generate_infrastructure_report c3vms demoAz).toOption.map
        (fun r => r.overall_totals.total_provisioned.memory_gb) =
      some 4 ∧
    ((4 : ℚ) ≠ 399 / 100) ∧
    pyRound2 (1536 / 1024) + pyRound2 (2048 / 1024) + pyRound2 (513 / 1024) ≠
      399 / 100 := by
  refine ⟨?_, by norm_num, by norm_num [pyRound2, roundHalfEven]⟩
  have h1 : (generate_infrastructure_report c3vms demoAz).toOption.map
      (fun r => r.overall_totals.total_provisioned.memory_gb) =
      some (pyRound2 ((0 : ℚ) + 1536 / 1024 + 2048 / 1024 + 513 / 1024)) :=
    rfl
  rw [h1]
  norm_num [pyRound2, roundHalfEven]

/-- C3 (amended): in `generate_infrastructure_report` numeric aggregates
accumulate at full precision and are rounded to 2 decimal places only
once, in the final pass — shown here for the overall provisioned-memory
total, which equals the single rounding of the exact sum of
`memory_mb / 1024` over the counted VMs; for the three VMs with memory
1536, 2048 and 513 MB this total is exactly 4.0 GB, not 3.99 GB. -/
theorem c3_memory_rounded_once (vms : List VMRec) (az_list : List AZRec)
    (h : vms ≠ []) :
    (generate_infrastructure_report vms az_list).toOption.map
        (fun r => r.overall_totals.total_provisioned.memory_gb) =
      some (pyRound2
        (((vms.filter (fun vm => !vmSkipped (initialZones az_list) vm)).map
            (fun vm => vm.memory_mb.getD 0 / 1024)).sum)) := by
  have hne : vms.isEmpty = false := by
    cases vms with
    | nil => exact absurd rfl h
    | cons a l => rfl
  simp only [generate_infrastructure_report, hne, Bool.false_eq_true,
    if_false, Except.toOption, Option.map_some]
  have hacc := foldl_memory_acc (initialZones az_list) vms
    (initReport az_list) rfl
  simp only [finalizeReport, finalizeBlock]
  rw [hacc]
  simp [initReport, emptyTotals]

/-- C3 (witness): the amended theorem evaluated at the three concrete
VMs of the claim. -/
theorem c3_witness :
    (generate_infrastructure_report c3vms demoAz).toOption.map
        (fun r => r.overall_totals.total_provisioned.memory_gb) =
      some (pyRound2
        (((c3vms.filter (fun vm => !vmSkipped (initialZones demoAz) vm)).map
            (fun vm => vm.memory_mb.getD 0 / 1024)).sum)) :=
  c3_memory_rounded_once c3vms demoAz (by simp [c3vms])

/-- C8: a VM whose `az_name` is absent or does not appear in the fetched
zone list is skipped whole by the aggregation step (it contributes zero
to the overall totals and to every per-zone total), and its presence
does not make the report error: the report over any list containing such
a VM equals the report over the same list with that VM removed. -/
theorem c8_zone_exclusion (az_list : List AZRec) (vms1 vms2 : List VMRec)
    (vm : VMRec) (h : vmSkipped (initialZones az_list) vm = true) :
    (∀ r : Report, r.by_availability_zone.map Prod.fst =
        (initialZones az_list).map Prod.fst → processVM r vm = r) ∧
    generate_infrastructure_report (vms1 ++ vm :: vms2) az_list =
      Except.ok (finalizeReport
        ((vms1 ++ vms2).foldl processVM (initReport az_list))) := by
  have hskip : ∀ r : Report, r.by_availability_zone.map Prod.fst =
      (initialZones az_list).map Prod.fst → processVM r vm = r := by
    intro r hr
    have hsk : vmSkipped r.by_availability_zone vm = true := by
      rw [vmSkipped_congr _ (initialZones az_list) vm hr]
      exact h
    simp [processVM, hsk]
  refine ⟨hskip, ?_⟩
  have hne : (vms1 ++ vm :: vms2).isEmpty = false := by simp
  simp only [generate_infrastructure_report, hne, Bool.false_eq_true,
    if_false]
  have hfold : (vms1 ++ vm :: vms2).foldl processVM (initReport az_list) =
      (vms1 ++ vms2).foldl processVM (initReport az_list) := by
    rw [List.foldl_append, List.foldl_append, List.foldl_cons]
    congr 1
    exact hskip _ (by rw [foldl_zones_fst]; rfl)
  rw [hfold]

/-- C8 (witness): the theorem evaluated for a VM with no `az_name` and a
VM with an unknown `az_name`, inserted after one counted VM. -/
theorem c8_witness :
    processVM (initReport demoAz) vmNoZone = initReport demoAz ∧
    generate_infrastructure_report ([memVm 1536] ++ vmNoZone :: []) demoAz =
      Except.ok (finalizeReport
        (([memVm 1536] ++ []).foldl processVM (initReport demoAz))) ∧
    processVM (initReport demoAz) vmUnknownZone = initReport demoAz :=
  ⟨(c8_zone_exclusion demoAz [memVm 1536] [] vmNoZone rfl).1
      (initReport demoAz) rfl,
   (c8_zone_exclusion demoAz [memVm 1536] [] vmNoZone rfl).2,
   (c8_zone_exclusion demoAz [memVm 1536] [] vmUnknownZone rfl).1
      (initReport demoAz) rfl⟩

end Sangfor
